import Mathlib

/-
Verification of the node-value mutation layer of the Mini-XML fragment in
drivers/input/touchscreen/goodix_driver_gt9886/test_core/mxml-set.c.

The C code mutates a node (and at most its first child) in place.  The
shallow embedding models the reachable region of the heap as a `SetState`
(the supplied node plus its optional first child), C `NULL` pointers as
`Option.none`, and every resource-release side effect (a `free` of an owned
string, or an invocation of a custom destructor) as an entry in an ordered
event list returned alongside the result code and the updated state.
Allocation (`strdup` / `_mxml_strdupf`) may fail in C; the embedding makes
the allocator's success explicit as a boolean parameter.
-/

set_option autoImplicit false

namespace Mxml

/-- The node kinds of mxml.h (`mxml_type_t`) used by mxml-set.c. -/
inductive MxmlType where
  | element
  | integer
  | opaqueKind
  | real
  | text
  | custom
deriving DecidableEq, Repr

/-- The value union of `mxml_node_t` (`mxml_value_t`), flattened: each C
union member becomes its own field.  The setters only ever read or write the
member selected by the node's `type`, so the flattening is faithful for
them.  C `NULL` strings and pointers are `none`; pointer-sized handles and
function pointers are represented by opaque `Nat` identities. -/
structure MxmlUnion where
  elementName : Option String
  integer : Int
  opaqueStr : Option String
  textWhitespace : Int
  textString : Option String
  customData : Option Nat
  customDestroy : Option Nat
deriving DecidableEq, Repr

/-- One `mxml_node_t`, restricted to the fields mxml-set.c touches:
the type tag, the value union, and the user-data pointer. -/
structure MxmlNode where
  type : MxmlType
  value : MxmlUnion
  userData : Option Nat
deriving DecidableEq, Repr

/-- A resource-release side effect performed by a setter.  `destroy` records
the destructor identity, the handle passed to it, and a snapshot of the
target node at the moment of the call (in the C, the destructor runs while
the node still holds the old handle and old destructor). -/
inductive ReleaseEvent where
  | freeStr (s : String)
  | destroy (cb : Nat) (handle : Nat) (atTarget : MxmlNode)
deriving DecidableEq, Repr

/-- The region of the heap a setter can reach: the supplied node and its
first child (`node->child`), if any.  No setter looks deeper. -/
structure SetState where
  node : MxmlNode
  child : Option MxmlNode
deriving DecidableEq, Repr

/-- The outcome of one setter call: the C return code (0 or -1), the updated
reachable region (mirroring the nullness of the supplied node pointer), and
the ordered list of release side effects performed. -/
structure OpResult where
  ret : Int
  state : Option SetState
  events : List ReleaseEvent
deriving DecidableEq, Repr

/-- The CDATA marker, the first 8 characters compared by
`strncmp(name, "![CDATA[", 8)`. -/
def cdataMarker : List Char := "![CDATA[".data

/-- `strncmp(s, "![CDATA[", 8) == 0`: the marker (8 chars) begins `s`. -/
def isCdataMarked (s : String) : Bool := cdataMarker.isPrefixOf s.data

/-- Marker test on a possibly-NULL name.  The C passes the raw pointer to
`strncmp`, so a NULL name there is undefined behavior; it is modeled as not
matching the marker. -/
def isCdataMarkedOpt : Option String → Bool
  | none => false
  | some s => isCdataMarked s

/-- The fallback-descent test shared by SetCustom/SetInteger/SetOpaque(f)/
SetText(f): `node->type == MXML_ELEMENT && node->child &&
node->child->type == k`. -/
def descend (k : MxmlType) (st : SetState) : Bool :=
  match st.child with
  | some c => decide (st.node.type = .element) && decide (c.type = k)
  | none => false

/-- SetCDATA's asymmetric descent test: the node is an element whose own
name is not CDATA-marked, and its first child is an element whose name is
CDATA-marked. -/
def descendCDATA (st : SetState) : Bool :=
  match st.child with
  | some c =>
      decide (st.node.type = .element) &&
      !(isCdataMarkedOpt st.node.value.elementName) &&
      decide (c.type = .element) &&
      isCdataMarkedOpt c.value.elementName
  | none => false

/-- The node a setter operates on after the optional descent. -/
def getTarget (b : Bool) (st : SetState) : MxmlNode :=
  if b then st.child.getD st.node else st.node

/-- Write the mutated target back into the reachable region. -/
def putTarget (b : Bool) (st : SetState) (n : MxmlNode) : SetState :=
  if b then { st with child := some n } else { st with node := n }

/-- Post-descent target for the kind-`k` setters. -/
def targetFor (k : MxmlType) (st : SetState) : MxmlNode :=
  getTarget (descend k st) st

/-- Post-descent target for SetCDATA. -/
def cdataTarget (st : SetState) : MxmlNode :=
  getTarget (descendCDATA st) st

/-- The `free` performed on an owned string member: a NULL member is not
freed, a non-NULL one is freed exactly once. -/
def freeEvents : Option String → List ReleaseEvent
  | none => []
  | some old => [ReleaseEvent.freeStr old]

/-- SetCustom's release: `if (data && destroy) (*destroy)(data)`, recorded
with a snapshot of the node as the destructor sees it. -/
def customEvents (n : MxmlNode) : List ReleaseEvent :=
  match n.value.customData, n.value.customDestroy with
  | some d, some cb => [ReleaseEvent.destroy cb d n]
  | _, _ => []

/-- libc `strdup`, with its allocation success made explicit: on success the
new owned string equals the argument, on failure the result is NULL. -/
def strdup (allocOk : Bool) (s : String) : Option String :=
  if allocOk then some s else none

/-- A printf-style argument, as consumed by the formatted-allocate helper. -/
inductive FmtArg where
  | argInt (i : Int)
  | argStr (s : String)
deriving DecidableEq, Repr

/-- Modelled from the spec: the rendering performed by the internal
formatted-allocate helper `_mxml_strdupf` (its source is outside this
fragment).  Per the spec it is "a single internal helper taking a format
description plus a sequence of typed arguments, returning an owned string";
`%d` consumes an integer argument, `%s` a string argument, `%%` renders a
literal percent, and every other character is copied. -/
def renderFormat : List Char → List FmtArg → List Char
  | [], _ => []
  | '%' :: 'd' :: rest, FmtArg.argInt i :: args =>
      (toString i).data ++ renderFormat rest args
  | '%' :: 's' :: rest, FmtArg.argStr s :: args =>
      s.data ++ renderFormat rest args
  | '%' :: '%' :: rest, args => '%' :: renderFormat rest args
  | c :: rest, args => c :: renderFormat rest args

/-- Modelled from the spec: `_mxml_strdupf` renders the format into a
freshly allocated owned string; like `strdup`, allocation may fail, in which
case the result is NULL. -/
def strdupf (allocOk : Bool) (format : String) (args : List FmtArg) : Option String :=
  if allocOk then some (String.mk (renderFormat format.data args)) else none

/-- The format string SetCDATA hands to the helper. -/
def cdataFormat : String := "![CDATA[%s]]"

/-- Store a new element-name member. -/
def setName (n : MxmlNode) (nm : Option String) : MxmlNode :=
  { n with value := { n.value with elementName := nm } }

/-- Store a new opaque-string member. -/
def setOpaqueVal (n : MxmlNode) (v : Option String) : MxmlNode :=
  { n with value := { n.value with opaqueStr := v } }

/-- Store new text members (whitespace flag and string). -/
def setTextVal (n : MxmlNode) (w : Int) (v : Option String) : MxmlNode :=
  { n with value := { n.value with textWhitespace := w, textString := v } }

/-- Store new custom members (handle and destructor). -/
def setCustomVal (n : MxmlNode) (d cb : Option Nat) : MxmlNode :=
  { n with value := { n.value with customData := d, customDestroy := cb } }

/-- Store a new integer member. -/
def setIntVal (n : MxmlNode) (i : Int) : MxmlNode :=
  { n with value := { n.value with integer := i } }

/-- `mxmlSetCDATA(node, data)`: descend per `descendCDATA`, require an
element target whose name is CDATA-marked and a non-NULL `data`, free the
old name, install `_mxml_strdupf("![CDATA[%s]]", data)`. -/
def mxmlSetCDATA (allocOk : Bool) : Option SetState → Option String → OpResult
  | none, _ => ⟨-1, none, []⟩
  | some st, none => ⟨-1, some st, []⟩
  | some st, some d =>
      if (cdataTarget st).type = .element ∧
          isCdataMarkedOpt (cdataTarget st).value.elementName = true then
        ⟨0, some (putTarget (descendCDATA st) st
            (setName (cdataTarget st) (strdupf allocOk cdataFormat [FmtArg.argStr d]))),
          freeEvents (cdataTarget st).value.elementName⟩
      else ⟨-1, some st, []⟩

/-- `mxmlSetCustom(node, data, destroy)`: descend toward a custom child,
require a custom target, run the old destructor on the old handle when both
are non-NULL, install the new handle and destructor. -/
def mxmlSetCustom : Option SetState → Option Nat → Option Nat → OpResult
  | none, _, _ => ⟨-1, none, []⟩
  | some st, data, destroy =>
      if (targetFor .custom st).type = .custom then
        ⟨0, some (putTarget (descend .custom st) st
            (setCustomVal (targetFor .custom st) data destroy)),
          customEvents (targetFor .custom st)⟩
      else ⟨-1, some st, []⟩

/-- `mxmlSetElement(node, name)`: no descent; require an element node and a
non-NULL name, free the old name, install `strdup(name)`. -/
def mxmlSetElement (allocOk : Bool) : Option SetState → Option String → OpResult
  | none, _ => ⟨-1, none, []⟩
  | some st, none => ⟨-1, some st, []⟩
  | some st, some nm =>
      if st.node.type = .element then
        ⟨0, some { st with node := setName st.node (strdup allocOk nm) },
          freeEvents st.node.value.elementName⟩
      else ⟨-1, some st, []⟩

/-- `mxmlSetInteger(node, integer)`: descend toward an integer child,
require an integer target, store the integer. -/
def mxmlSetInteger : Option SetState → Int → OpResult
  | none, _ => ⟨-1, none, []⟩
  | some st, i =>
      if (targetFor .integer st).type = .integer then
        ⟨0, some (putTarget (descend .integer st) st
            (setIntVal (targetFor .integer st) i)), []⟩
      else ⟨-1, some st, []⟩

/-- `mxmlSetOpaque(node, opaque)`: descend toward an opaque child, require
an opaque target and a non-NULL string, free the old string, install
`strdup(opaque)`. -/
def mxmlSetOpaque (allocOk : Bool) : Option SetState → Option String → OpResult
  | none, _ => ⟨-1, none, []⟩
  | some st, none => ⟨-1, some st, []⟩
  | some st, some v =>
      if (targetFor .opaqueKind st).type = .opaqueKind then
        ⟨0, some (putTarget (descend .opaqueKind st) st
            (setOpaqueVal (targetFor .opaqueKind st) (strdup allocOk v))),
          freeEvents (targetFor .opaqueKind st).value.opaqueStr⟩
      else ⟨-1, some st, []⟩

/-- `mxmlSetOpaquef(node, format, ...)`: like `mxmlSetOpaque` but the new
string is rendered by `_mxml_strdupf(format, ap)`. -/
def mxmlSetOpaquef (allocOk : Bool) :
    Option SetState → Option String → List FmtArg → OpResult
  | none, _, _ => ⟨-1, none, []⟩
  | some st, none, _ => ⟨-1, some st, []⟩
  | some st, some f, args =>
      if (targetFor .opaqueKind st).type = .opaqueKind then
        ⟨0, some (putTarget (descend .opaqueKind st) st
            (setOpaqueVal (targetFor .opaqueKind st) (strdupf allocOk f args))),
          freeEvents (targetFor .opaqueKind st).value.opaqueStr⟩
      else ⟨-1, some st, []⟩

/-- `mxmlSetText(node, whitespace, string)`: descend toward a text child,
require a text target and a non-NULL string, free the old string, store the
whitespace flag and `strdup(string)`. -/
def mxmlSetText (allocOk : Bool) : Option SetState → Int → Option String → OpResult
  | none, _, _ => ⟨-1, none, []⟩
  | some st, _, none => ⟨-1, some st, []⟩
  | some st, whitespace, some v =>
      if (targetFor .text st).type = .text then
        ⟨0, some (putTarget (descend .text st) st
            (setTextVal (targetFor .text st) whitespace (strdup allocOk v))),
          freeEvents (targetFor .text st).value.textString⟩
      else ⟨-1, some st, []⟩

/-- `mxmlSetTextf(node, whitespace, format, ...)`: like `mxmlSetText` but
the new string is rendered by `_mxml_strdupf(format, ap)`. -/
def mxmlSetTextf (allocOk : Bool) :
    Option SetState → Int → Option String → List FmtArg → OpResult
  | none, _, _, _ => ⟨-1, none, []⟩
  | some st, _, none, _ => ⟨-1, some st, []⟩
  | some st, whitespace, some f, args =>
      if (targetFor .text st).type = .text then
        ⟨0, some (putTarget (descend .text st) st
            (setTextVal (targetFor .text st) whitespace (strdupf allocOk f args))),
          freeEvents (targetFor .text st).value.textString⟩
      else ⟨-1, some st, []⟩

/-- `mxmlSetUserData(node, data)`: no descent, no kind check; store the
user-data pointer on any non-NULL node. -/
def mxmlSetUserData : Option SetState → Option Nat → OpResult
  | none, _ => ⟨-1, none, []⟩
  | some st, data =>
      ⟨0, some { st with node := { st.node with userData := data } }, []⟩

/-- One setter call together with its kind-specific arguments, used to
quantify over the operations of the API. -/
inductive SetOp where
  | setCDATA (data : Option String)
  | setCustom (data : Option Nat) (destroy : Option Nat)
  | setElement (name : Option String)
  | setInteger (i : Int)
  | setOpaque (v : Option String)
  | setOpaquef (format : Option String) (args : List FmtArg)
  | setText (whitespace : Int) (v : Option String)
  | setTextf (whitespace : Int) (format : Option String) (args : List FmtArg)
  | setUserData (data : Option Nat)
deriving DecidableEq, Repr

/-- Dispatch a `SetOp` to the corresponding setter. -/
def runOp (allocOk : Bool) (o : SetOp) (s : Option SetState) : OpResult :=
  match o with
  | .setCDATA d => mxmlSetCDATA allocOk s d
  | .setCustom d cb => mxmlSetCustom s d cb
  | .setElement nm => mxmlSetElement allocOk s nm
  | .setInteger i => mxmlSetInteger s i
  | .setOpaque v => mxmlSetOpaque allocOk s v
  | .setOpaquef f a => mxmlSetOpaquef allocOk s f a
  | .setText w v => mxmlSetText allocOk s w v
  | .setTextf w f a => mxmlSetTextf allocOk s w f a
  | .setUserData d => mxmlSetUserData s d

/-- The descent each operation actually performs in the C. -/
def descendFor (o : SetOp) (st : SetState) : Bool :=
  match o with
  | .setCDATA _ => descendCDATA st
  | .setCustom _ _ => descend .custom st
  | .setElement _ => false
  | .setInteger _ => descend .integer st
  | .setOpaque _ => descend .opaqueKind st
  | .setOpaquef _ _ => descend .opaqueKind st
  | .setText _ _ => descend .text st
  | .setTextf _ _ _ => descend .text st
  | .setUserData _ => false

/-- The node an operation validates and mutates. -/
def targetOf (o : SetOp) (st : SetState) : MxmlNode :=
  getTarget (descendFor o st) st

/-- The node kind each operation requires of its target (none for
SetUserData, which checks no kind). -/
def expectedKind : SetOp → Option MxmlType
  | .setCDATA _ => some .element
  | .setCustom _ _ => some .custom
  | .setElement _ => some .element
  | .setInteger _ => some .integer
  | .setOpaque _ => some .opaqueKind
  | .setOpaquef _ _ => some .opaqueKind
  | .setText _ _ => some .text
  | .setTextf _ _ _ => some .text
  | .setUserData _ => none

/-- Whether the post-descent target fails the operation's kind check. -/
def kindMismatch (o : SetOp) (st : SetState) : Bool :=
  match expectedKind o with
  | some k => decide ((targetOf o st).type ≠ k)
  | none => false

/-- Whether the operation's required string/format argument is NULL. -/
def requiredArgNull : SetOp → Bool
  | .setCDATA d => d.isNone
  | .setElement nm => nm.isNone
  | .setOpaque v => v.isNone
  | .setOpaquef f _ => f.isNone
  | .setText _ v => v.isNone
  | .setTextf _ f _ => f.isNone
  | _ => false

/-- The invalid-call conditions of the error-handling contract: NULL node,
wrong kind after the descent, or NULL required string/format argument. -/
def invalidCall (o : SetOp) (s : Option SetState) : Bool :=
  match s with
  | none => true
  | some st => kindMismatch o st || requiredArgNull o

/-- The operations that own their payload: the string setters and the
custom setter (everything but SetInteger and SetUserData). -/
def ownedOp : SetOp → Bool
  | .setInteger _ => false
  | .setUserData _ => false
  | _ => true

/-- The string-installing setters. -/
def stringOp : SetOp → Bool
  | .setCDATA _ => true
  | .setElement _ => true
  | .setOpaque _ => true
  | .setOpaquef _ _ => true
  | .setText _ _ => true
  | .setTextf _ _ _ => true
  | _ => false

/-- The operations whose C code contains the fallback descent (every
operation except SetElement and SetUserData). -/
def descendingOp : SetOp → Bool
  | .setElement _ => false
  | .setUserData _ => false
  | _ => true

/-- The release the old target payload calls for, if any: a `free` of a
non-NULL owned string, or an invocation of the old destructor on the old
handle when both are non-NULL. -/
def oldOwned (o : SetOp) (st : SetState) : Option ReleaseEvent :=
  match o with
  | .setCDATA _ => ((targetOf o st).value.elementName).map ReleaseEvent.freeStr
  | .setElement _ => ((targetOf o st).value.elementName).map ReleaseEvent.freeStr
  | .setOpaque _ => ((targetOf o st).value.opaqueStr).map ReleaseEvent.freeStr
  | .setOpaquef _ _ => ((targetOf o st).value.opaqueStr).map ReleaseEvent.freeStr
  | .setText _ _ => ((targetOf o st).value.textString).map ReleaseEvent.freeStr
  | .setTextf _ _ _ => ((targetOf o st).value.textString).map ReleaseEvent.freeStr
  | .setCustom _ _ =>
      match (targetOf o st).value.customData, (targetOf o st).value.customDestroy with
      | some d, some cb => some (ReleaseEvent.destroy cb d (targetOf o st))
      | _, _ => none
  | .setInteger _ => none
  | .setUserData _ => none

/-- The string member an operation installs into, read from a node. -/
def storedStr (o : SetOp) (n : MxmlNode) : Option String :=
  match o with
  | .setCDATA _ => n.value.elementName
  | .setElement _ => n.value.elementName
  | .setOpaque _ => n.value.opaqueStr
  | .setOpaquef _ _ => n.value.opaqueStr
  | .setText _ _ => n.value.textString
  | .setTextf _ _ _ => n.value.textString
  | _ => none

/-- The traversal rule's condition on the first child: its kind matches the
operation's target kind, or, for SetCDATA, it is an element whose name is
CDATA-marked. -/
def childMatches (o : SetOp) (c : MxmlNode) : Bool :=
  match o with
  | .setCDATA _ => decide (c.type = .element) && isCdataMarkedOpt c.value.elementName
  | _ =>
      match expectedKind o with
      | some k => decide (c.type = k)
      | none => false

/-- A value union with every member zeroed / NULL. -/
def emptyUnion : MxmlUnion := ⟨none, 0, none, 0, none, none, none⟩

/-- A fresh element node with the given name. -/
def elemNode (nm : String) : MxmlNode :=
  ⟨.element, { emptyUnion with elementName := some nm }, none⟩

/-- A fresh opaque node with the given stored string. -/
def opNode (old : Option String) : MxmlNode :=
  ⟨.opaqueKind, { emptyUnion with opaqueStr := old }, none⟩

/-- A fresh text node with whitespace flag 0 and stored string "t". -/
def sampleTextNode : MxmlNode :=
  ⟨.text, { emptyUnion with textString := some "t" }, none⟩

/-- A fresh custom node with the given handle and destructor. -/
def customNode (d cb : Option Nat) : MxmlNode :=
  ⟨.custom, { emptyUnion with customData := d, customDestroy := cb }, none⟩

/-- An element named "a" wrapping a first child element named "b". -/
def stE0 : SetState := ⟨elemNode "a", some (elemNode "b")⟩

/-- Reading the target back after writing it returns the written node. -/
theorem getTarget_putTarget (b : Bool) (st : SetState) (n : MxmlNode) :
    getTarget b (putTarget b st n) = n := by
  cases b <;> rfl

/-- The CDATA marker begins every string of the shape "![CDATA[" ++ s. -/
theorem isCdataMarked_append (s : String) :
    isCdataMarked ("![CDATA[" ++ s) = true := by
  unfold isCdataMarked cdataMarker
  rw [String.data_append, List.isPrefixOf_iff_prefix]
  exact List.prefix_append _ _

/-- `freeEvents` releases its argument exactly once when present and not at
all when absent, stated against the `Option.map` view of the old value. -/
theorem freeEvents_spec (x : Option String) :
    (x.map ReleaseEvent.freeStr = none → freeEvents x = []) ∧
    (∀ e, x.map ReleaseEvent.freeStr = some e → freeEvents x = [e]) := by
  cases x <;> simp [freeEvents]

/-- A kind mismatch after the descent makes every operation fail with the
state untouched and no release performed. -/
theorem kindMismatch_noop (a : Bool) (o : SetOp) (st : SetState)
    (h : kindMismatch o st = true) : runOp a o (some st) = ⟨-1, some st, []⟩ := by
  cases o with
  | setCDATA d =>
      have hk : ¬ (cdataTarget st).type = .element := by
        simpa [kindMismatch, expectedKind, targetOf, descendFor, cdataTarget] using h
      cases d with
      | none => rfl
      | some dd =>
          simp only [runOp, mxmlSetCDATA]
          rw [if_neg (fun hab => hk hab.1)]
  | setCustom nd ncb =>
      have hk : ¬ (targetFor .custom st).type = .custom := by
        simpa [kindMismatch, expectedKind, targetOf, descendFor, targetFor] using h
      simp only [runOp, mxmlSetCustom]
      rw [if_neg hk]
  | setElement nm =>
      have hk : ¬ st.node.type = .element := by
        simpa [kindMismatch, expectedKind, targetOf, descendFor, getTarget] using h
      cases nm with
      | none => rfl
      | some x =>
          simp only [runOp, mxmlSetElement]
          rw [if_neg hk]
  | setInteger i =>
      have hk : ¬ (targetFor .integer st).type = .integer := by
        simpa [kindMismatch, expectedKind, targetOf, descendFor, targetFor] using h
      simp only [runOp, mxmlSetInteger]
      rw [if_neg hk]
  | setOpaque v =>
      have hk : ¬ (targetFor .opaqueKind st).type = .opaqueKind := by
        simpa [kindMismatch, expectedKind, targetOf, descendFor, targetFor] using h
      cases v with
      | none => rfl
      | some x =>
          simp only [runOp, mxmlSetOpaque]
          rw [if_neg hk]
  | setOpaquef f args =>
      have hk : ¬ (targetFor .opaqueKind st).type = .opaqueKind := by
        simpa [kindMismatch, expectedKind, targetOf, descendFor, targetFor] using h
      cases f with
      | none => rfl
      | some x =>
          simp only [runOp, mxmlSetOpaquef]
          rw [if_neg hk]
  | setText w v =>
      have hk : ¬ (targetFor .text st).type = .text := by
        simpa [kindMismatch, expectedKind, targetOf, descendFor, targetFor] using h
      cases v with
      | none => rfl
      | some x =>
          simp only [runOp, mxmlSetText]
          rw [if_neg hk]
  | setTextf w f args =>
      have hk : ¬ (targetFor .text st).type = .text := by
        simpa [kindMismatch, expectedKind, targetOf, descendFor, targetFor] using h
      cases f with
      | none => rfl
      | some x =>
          simp only [runOp, mxmlSetTextf]
          rw [if_neg hk]
  | setUserData d => simp [kindMismatch, expectedKind] at h

/-- A NULL required string/format argument makes the operation fail with the
state untouched and no release performed. -/
theorem argNull_noop (a : Bool) (o : SetOp) (st : SetState)
    (h : requiredArgNull o = true) : runOp a o (some st) = ⟨-1, some st, []⟩ := by
  cases o with
  | setCDATA d =>
      cases d with
      | none => rfl
      | some x => simp [requiredArgNull] at h
  | setElement nm =>
      cases nm with
      | none => rfl
      | some x => simp [requiredArgNull] at h
  | setOpaque v =>
      cases v with
      | none => rfl
      | some x => simp [requiredArgNull] at h
  | setOpaquef f args =>
      cases f with
      | none => rfl
      | some x => simp [requiredArgNull] at h
  | setText w v =>
      cases v with
      | none => rfl
      | some x => simp [requiredArgNull] at h
  | setTextf w f args =>
      cases f with
      | none => rfl
      | some x => simp [requiredArgNull] at h
  | setCustom nd ncb => simp [requiredArgNull] at h
  | setInteger i => simp [requiredArgNull] at h
  | setUserData d => simp [requiredArgNull] at h

/-- C2: for every operation, a NULL node, a wrong-kind node after the
descent, or a NULL required string/format argument makes the call report
failure (-1) with the reachable state bit-for-bit unchanged and no release
performed. -/
theorem noop_on_failure (a : Bool) (o : SetOp) (s : Option SetState)
    (h : invalidCall o s = true) : runOp a o s = ⟨-1, s, []⟩ := by
  cases s with
  | none => cases o <;> rfl
  | some st =>
      have h2 : kindMismatch o st = true ∨ requiredArgNull o = true := by
        simpa [invalidCall] using h
      rcases h2 with hk | ha
      · exact kindMismatch_noop a o st hk
      · exact argNull_noop a o st ha

/-- Witness for C2: SetOpaque on a text node fails and leaves the state
unchanged. -/
theorem noop_on_failure_witness :
    runOp true (SetOp.setOpaque (some "x")) (some ⟨sampleTextNode, none⟩)
      = ⟨-1, some ⟨sampleTextNode, none⟩, []⟩ :=
  noop_on_failure true (SetOp.setOpaque (some "x")) (some ⟨sampleTextNode, none⟩)
    (by decide)

/-- C4 counterexample: on a text node holding whitespace flag 0, SetText
with flag 1 and a NULL string fails and leaves the whole state, including
the whitespace flag, unchanged — the flag is not overwritten with the
supplied value. -/
theorem setText_null_string_keeps_flag :
    (mxmlSetText true (some ⟨sampleTextNode, none⟩) 1 none).ret = -1 ∧
    (mxmlSetText true (some ⟨sampleTextNode, none⟩) 1 none).state
      = some ⟨sampleTextNode, none⟩ ∧
    sampleTextNode.value.textWhitespace = 0 := by
  decide

/-- C4 (amended): when SetText or SetTextFormatted is called with a NULL
string/format argument, the call reports failure and leaves the node
entirely unchanged — the whitespace flag is not overwritten and the string
payload is untouched. -/
theorem setText_null_arg_noop (a : Bool) (st : SetState) (w : Int)
    (args : List FmtArg) :
    mxmlSetText a (some st) w none = ⟨-1, some st, []⟩ ∧
    mxmlSetTextf a (some st) w none args = ⟨-1, some st, []⟩ :=
  ⟨rfl, rfl⟩

/-- C8: SetTextFormatted with format "%d-%s" and arguments (3, "x") is
extensionally equal to SetText with the pre-rendered string "3-x": same
result code, same resulting state (hence same stored string and whitespace
flag), same releases. -/
theorem setTextf_matches_setText (a : Bool) (s : Option SetState) (w : Int) :
    mxmlSetTextf a s w (some "%d-%s") [FmtArg.argInt 3, FmtArg.argStr "x"]
      = mxmlSetText a s w (some "3-x") := by
  have hs : strdupf a "%d-%s" [FmtArg.argInt 3, FmtArg.argStr "x"]
      = strdup a "3-x" := by
    cases a <;> decide
  cases s with
  | none => rfl
  | some st => simp only [mxmlSetTextf, mxmlSetText, hs]

/-- C9: SetUserData succeeds on every non-NULL node of any kind with any
pointer value (including NULL), overwrites only the userData field (type,
value union and first child are preserved), performs no release, and fails
only on a NULL node. -/
theorem setUserData_frame (st : SetState) (d : Option Nat) :
    mxmlSetUserData (some st) d
      = ⟨0, some { st with node := { st.node with userData := d } }, []⟩ ∧
    mxmlSetUserData none d = ⟨-1, none, []⟩ :=
  ⟨rfl, rfl⟩

/-- C1: every successful call to a string-payload or custom-payload setter
releases the previously stored owned value of its target exactly once — the
old string is freed (for SetCustom, the old destructor is invoked on the old
handle) if and only if the old value was present (for SetCustom: handle and
destructor both non-NULL), and no second release occurs.  Applied to each
call of a repeated mutation sequence this rules out both leaks and double
releases. -/
theorem exactly_once_release (a : Bool) (o : SetOp) (st : SetState)
    (h1 : ownedOp o = true) (h2 : (runOp a o (some st)).ret = 0) :
    (oldOwned o st = none → (runOp a o (some st)).events = []) ∧
    (∀ e, oldOwned o st = some e → (runOp a o (some st)).events = [e]) := by
  cases o with
  | setInteger i => simp [ownedOp] at h1
  | setUserData d => simp [ownedOp] at h1
  | setCDATA d =>
      cases d with
      | none => exact absurd (show (-1 : Int) = 0 from h2) (by decide)
      | some dd =>
          by_cases hk : (cdataTarget st).type = .element ∧
              isCdataMarkedOpt (cdataTarget st).value.elementName = true
          · have he : (runOp a (.setCDATA (some dd)) (some st)).events
                = freeEvents (cdataTarget st).value.elementName := by
              simp [runOp, mxmlSetCDATA, if_pos hk]
            have ho : oldOwned (.setCDATA (some dd)) st
                = ((cdataTarget st).value.elementName).map ReleaseEvent.freeStr := rfl
            rw [he, ho]
            exact freeEvents_spec _
          · simp [runOp, mxmlSetCDATA, if_neg hk] at h2
  | setElement nm =>
      cases nm with
      | none => exact absurd (show (-1 : Int) = 0 from h2) (by decide)
      | some x =>
          by_cases hk : st.node.type = .element
          · have he : (runOp a (.setElement (some x)) (some st)).events
                = freeEvents st.node.value.elementName := by
              simp [runOp, mxmlSetElement, if_pos hk]
            have ho : oldOwned (.setElement (some x)) st
                = (st.node.value.elementName).map ReleaseEvent.freeStr := rfl
            rw [he, ho]
            exact freeEvents_spec _
          · simp [runOp, mxmlSetElement, if_neg hk] at h2
  | setOpaque v =>
      cases v with
      | none => exact absurd (show (-1 : Int) = 0 from h2) (by decide)
      | some x =>
          by_cases hk : (targetFor .opaqueKind st).type = .opaqueKind
          · have he : (runOp a (.setOpaque (some x)) (some st)).events
                = freeEvents (targetFor .opaqueKind st).value.opaqueStr := by
              simp [runOp, mxmlSetOpaque, if_pos hk]
            have ho : oldOwned (.setOpaque (some x)) st
                = ((targetFor .opaqueKind st).value.opaqueStr).map ReleaseEvent.freeStr := rfl
            rw [he, ho]
            exact freeEvents_spec _
          · simp [runOp, mxmlSetOpaque, if_neg hk] at h2
  | setOpaquef f args =>
      cases f with
      | none => exact absurd (show (-1 : Int) = 0 from h2) (by decide)
      | some x =>
          by_cases hk : (targetFor .opaqueKind st).type = .opaqueKind
          · have he : (runOp a (.setOpaquef (some x) args) (some st)).events
                = freeEvents (targetFor .opaqueKind st).value.opaqueStr := by
              simp [runOp, mxmlSetOpaquef, if_pos hk]
            have ho : oldOwned (.setOpaquef (some x) args) st
                = ((targetFor .opaqueKind st).value.opaqueStr).map ReleaseEvent.freeStr := rfl
            rw [he, ho]
            exact freeEvents_spec _
          · simp [runOp, mxmlSetOpaquef, if_neg hk] at h2
  | setText w v =>
      cases v with
      | none => exact absurd (show (-1 : Int) = 0 from h2) (by decide)
      | some x =>
          by_cases hk : (targetFor .text st).type = .text
          · have he : (runOp a (.setText w (some x)) (some st)).events
                = freeEvents (targetFor .text st).value.textString := by
              simp [runOp, mxmlSetText, if_pos hk]
            have ho : oldOwned (.setText w (some x)) st
                = ((targetFor .text st).value.textString).map ReleaseEvent.freeStr := rfl
            rw [he, ho]
            exact freeEvents_spec _
          · simp [runOp, mxmlSetText, if_neg hk] at h2
  | setTextf w f args =>
      cases f with
      | none => exact absurd (show (-1 : Int) = 0 from h2) (by decide)
      | some x =>
          by_cases hk : (targetFor .text st).type = .text
          · have he : (runOp a (.setTextf w (some x) args) (some st)).events
                = freeEvents (targetFor .text st).value.textString := by
              simp [runOp, mxmlSetTextf, if_pos hk]
            have ho : oldOwned (.setTextf w (some x) args) st
                = ((targetFor .text st).value.textString).map ReleaseEvent.freeStr := rfl
            rw [he, ho]
            exact freeEvents_spec _
          · simp [runOp, mxmlSetTextf, if_neg hk] at h2
  | setCustom nd ncb =>
      by_cases hk : (targetFor .custom st).type = .custom
      · have he : (runOp a (.setCustom nd ncb) (some st)).events
            = customEvents (targetFor .custom st) := by
          simp [runOp, mxmlSetCustom, if_pos hk]
        have ho : oldOwned (.setCustom nd ncb) st =
            (match (targetFor .custom st).value.customData,
                   (targetFor .custom st).value.customDestroy with
             | some d, some cb => some (ReleaseEvent.destroy cb d (targetFor .custom st))
             | _, _ => none) := rfl
        rw [he, ho]
        unfold customEvents
        rcases hd : (targetFor .custom st).value.customData with _ | d <;>
          rcases hc : (targetFor .custom st).value.customDestroy with _ | cb <;>
            simp [hd, hc]
      · simp [runOp, mxmlSetCustom, if_neg hk] at h2

/-- Witness for C1: a successful SetOpaque over an old stored string frees
exactly that string. -/
theorem exactly_once_release_witness :
    (runOp true (SetOp.setOpaque (some "new")) (some ⟨opNode (some "old"), none⟩)).events
      = [ReleaseEvent.freeStr "old"] :=
  (exactly_once_release true (SetOp.setOpaque (some "new"))
      ⟨opNode (some "old"), none⟩ (by decide) (by decide)).2
    (ReleaseEvent.freeStr "old") (by decide)

/-- C5: a successful SetCustom on a target whose old handle and old
destructor are both present performs exactly one destructor invocation,
passing the old handle to the old destructor; the event's node snapshot is
the pre-mutation target, which still holds the old handle and destructor,
so the invocation happens before the new handle and new destructor are
installed; afterwards the target holds exactly the new handle and
destructor. -/
theorem custom_destructor_exactly_once (st : SetState) (d cb : Nat) (nd ncb : Option Nat)
    (h1 : (targetFor .custom st).value.customData = some d)
    (h2 : (targetFor .custom st).value.customDestroy = some cb)
    (h3 : (mxmlSetCustom (some st) nd ncb).ret = 0) :
    (mxmlSetCustom (some st) nd ncb).events
      = [ReleaseEvent.destroy cb d (targetFor .custom st)] ∧
    ((mxmlSetCustom (some st) nd ncb).state).map
      (fun s2 => (getTarget (descend .custom st) s2).value.customData) = some nd ∧
    ((mxmlSetCustom (some st) nd ncb).state).map
      (fun s2 => (getTarget (descend .custom st) s2).value.customDestroy) = some ncb := by
  by_cases hk : (targetFor .custom st).type = .custom
  · have hr : mxmlSetCustom (some st) nd ncb
        = ⟨0, some (putTarget (descend .custom st) st
            (setCustomVal (targetFor .custom st) nd ncb)),
          customEvents (targetFor .custom st)⟩ := by
      simp [mxmlSetCustom, if_pos hk]
    rw [hr]
    refine ⟨?_, ?_, ?_⟩
    · show customEvents (targetFor .custom st) = _
      unfold customEvents
      rw [h1, h2]
    · simp [getTarget_putTarget, setCustomVal]
    · simp [getTarget_putTarget, setCustomVal]
  · simp [mxmlSetCustom, if_neg hk] at h3

/-- Witness for C5: replacing handle 7 (destructor 3) with handle 9
(destructor 4) invokes destructor 3 on handle 7 exactly once, against the
pre-mutation node. -/
theorem custom_destructor_exactly_once_witness :
    (mxmlSetCustom (some ⟨customNode (some 7) (some 3), none⟩) (some 9) (some 4)).events
      = [ReleaseEvent.destroy 3 7 (customNode (some 7) (some 3))] :=
  (custom_destructor_exactly_once ⟨customNode (some 7) (some 3), none⟩ 7 3 (some 9) (some 4)
    (by decide) (by decide) (by decide)).1

/-- C6: calling SetOpaque on an element whose first child is an opaque node
gives the same result code and leaves in that child the same resulting node
as calling SetOpaque directly on the child, for every non-NULL string. -/
theorem setOpaque_traversal_equivalence (a : Bool) (st : SetState) (c : MxmlNode) (v : String)
    (h1 : st.node.type = .element) (h2 : st.child = some c) (h3 : c.type = .opaqueKind) :
    (mxmlSetOpaque a (some st) (some v)).ret
      = (mxmlSetOpaque a (some ⟨c, none⟩) (some v)).ret ∧
    ((mxmlSetOpaque a (some st) (some v)).state.bind SetState.child)
      = ((mxmlSetOpaque a (some ⟨c, none⟩) (some v)).state.map SetState.node) := by
  have hd : descend .opaqueKind st = true := by
    unfold descend; rw [h2]; simp [h1, h3]
  have ht : targetFor .opaqueKind st = c := by
    unfold targetFor; rw [hd]; unfold getTarget; simp [h2]
  have hL : mxmlSetOpaque a (some st) (some v)
      = ⟨0, some (putTarget true st (setOpaqueVal c (strdup a v))),
          freeEvents c.value.opaqueStr⟩ := by
    simp [mxmlSetOpaque, ht, h3, hd]
  have hR : mxmlSetOpaque a (some ⟨c, none⟩) (some v)
      = ⟨0, some (putTarget false ⟨c, none⟩ (setOpaqueVal c (strdup a v))),
          freeEvents c.value.opaqueStr⟩ := by
    simp [mxmlSetOpaque, targetFor, descend, getTarget, h3]
  rw [hL, hR]
  exact ⟨rfl, by simp [putTarget]⟩

/-- Witness for C6: SetOpaque through an element wrapper and SetOpaque on
its opaque child agree at a concrete state. -/
theorem setOpaque_traversal_equivalence_witness :
    (mxmlSetOpaque true (some ⟨elemNode "w", some (opNode (some "o"))⟩) (some "nv")).ret
      = (mxmlSetOpaque true (some ⟨opNode (some "o"), none⟩) (some "nv")).ret ∧
    ((mxmlSetOpaque true (some ⟨elemNode "w", some (opNode (some "o"))⟩)
        (some "nv")).state.bind SetState.child)
      = ((mxmlSetOpaque true (some ⟨opNode (some "o"), none⟩)
        (some "nv")).state.map SetState.node) :=
  setOpaque_traversal_equivalence true ⟨elemNode "w", some (opNode (some "o"))⟩
    (opNode (some "o")) "nv" (by decide) rfl (by decide)

/-- C7: on a node whose name is CDATA-marked, SetCDATA with data "foo"
succeeds and stores the name exactly "![CDATA[foo]]"; a following
SetElement with "bar" succeeds and stores exactly "bar", with no residual
CDATA wrapper. -/
theorem cdata_roundtrip (st : SetState) (suffix : String)
    (h1 : st.node.type = .element)
    (h2 : st.node.value.elementName = some ("![CDATA[" ++ suffix)) :
    (mxmlSetCDATA true (some st) (some "foo")).ret = 0 ∧
    ((mxmlSetCDATA true (some st) (some "foo")).state).map
        (fun s2 => s2.node.value.elementName) = some (some "![CDATA[foo]]") ∧
    (mxmlSetElement true ((mxmlSetCDATA true (some st) (some "foo")).state)
        (some "bar")).ret = 0 ∧
    ((mxmlSetElement true ((mxmlSetCDATA true (some st) (some "foo")).state)
        (some "bar")).state).map
        (fun s2 => s2.node.value.elementName) = some (some "bar") := by
  have hm : isCdataMarkedOpt st.node.value.elementName = true := by
    rw [h2]; exact isCdataMarked_append suffix
  have hd : descendCDATA st = false := by
    unfold descendCDATA
    cases hc : st.child with
    | none => rfl
    | some c => simp [hm]
  have ht : cdataTarget st = st.node := by
    unfold cdataTarget; rw [hd]; rfl
  have hname : strdupf true cdataFormat [FmtArg.argStr "foo"] = some "![CDATA[foo]]" := by
    decide
  have hC : mxmlSetCDATA true (some st) (some "foo")
      = ⟨0, some { st with node := setName st.node (some "![CDATA[foo]]") },
          freeEvents st.node.value.elementName⟩ := by
    simp [mxmlSetCDATA, ht, hd, h1, hm, putTarget, hname]
  have hE : (setName st.node (some "![CDATA[foo]]")).type = .element := by
    simpa [setName] using h1
  rw [hC]
  refine ⟨rfl, by simp [setName], ?_, ?_⟩
  · simp [mxmlSetElement, hE]
  · simp [mxmlSetElement, hE, setName, strdup, h1]

/-- Witness for C7: the round trip at a concrete CDATA node named
"![CDATA[q]]". -/
theorem cdata_roundtrip_witness :
    (mxmlSetCDATA true (some ⟨elemNode "![CDATA[q]]", none⟩) (some "foo")).ret = 0 ∧
    ((mxmlSetCDATA true (some ⟨elemNode "![CDATA[q]]", none⟩) (some "foo")).state).map
        (fun s2 => s2.node.value.elementName) = some (some "![CDATA[foo]]") ∧
    (mxmlSetElement true
        ((mxmlSetCDATA true (some ⟨elemNode "![CDATA[q]]", none⟩) (some "foo")).state)
        (some "bar")).ret = 0 ∧
    ((mxmlSetElement true
        ((mxmlSetCDATA true (some ⟨elemNode "![CDATA[q]]", none⟩) (some "foo")).state)
        (some "bar")).state).map
        (fun s2 => s2.node.value.elementName) = some (some "bar") :=
  cdata_roundtrip ⟨elemNode "![CDATA[q]]", none⟩ "q]]" rfl (by decide)

/-- C3 counterexample: SetElement does not apply the traversal rule.  At a
concrete element node named "a" (not CDATA-marked) whose first child is an
element named "b" (matching SetElement's target kind), the call mutates the
supplied node itself and leaves the first child untouched, instead of
retargeting to the first child. -/
theorem setElement_no_retarget :
    stE0.node.type = .element ∧
    isCdataMarkedOpt stE0.node.value.elementName = false ∧
    stE0.child = some (elemNode "b") ∧
    (elemNode "b").type = .element ∧
    (runOp true (SetOp.setElement (some "new")) (some stE0)).state
      = some ⟨setName (elemNode "a") (some "new"), some (elemNode "b")⟩ ∧
    (setName (elemNode "a") (some "new")).value.elementName = some "new" ∧
    (elemNode "b").value.elementName = some "b" := by
  decide

/-- C3 (amended): every operation except the user-data setter and the
element-name setter (SetElement performs no descent at all) applies the
traversal rule: when the supplied node is an element whose name is not a
CDATA marker and its first child matches the operation's target kind (for
SetCDATA: is an element whose name is a CDATA marker), the operation
behaves exactly as if called on that first child — same result code, same
releases, the supplied node untouched and the child holding the result of
the direct call; and for these operations a post-descent target of the
wrong kind always makes the call fail. -/
theorem traversal_rule (a : Bool) (o : SetOp) (st : SetState) (c : MxmlNode)
    (h1 : descendingOp o = true)
    (h2 : st.node.type = .element)
    (h3 : isCdataMarkedOpt st.node.value.elementName = false)
    (h4 : st.child = some c)
    (h5 : childMatches o c = true) :
    ((runOp a o (some st)).ret = (runOp a o (some ⟨c, none⟩)).ret ∧
     (runOp a o (some st)).events = (runOp a o (some ⟨c, none⟩)).events ∧
     (runOp a o (some st)).state
       = some ⟨st.node, ((runOp a o (some ⟨c, none⟩)).state).map SetState.node⟩) ∧
    (∀ st2 : SetState, kindMismatch o st2 = true → (runOp a o (some st2)).ret = -1) := by
  cases o with
  | setElement nm => simp [descendingOp] at h1
  | setUserData d => simp [descendingOp] at h1
  | setCDATA v =>
      have hc : c.type = .element ∧ isCdataMarkedOpt c.value.elementName = true := by
        simpa [childMatches] using h5
      refine ⟨?_, fun st2 hm => by rw [kindMismatch_noop a _ st2 hm]⟩
      have hd : descendCDATA st = true := by
        unfold descendCDATA; rw [h4]; simp [h2, h3, hc.1, hc.2]
      have ht : cdataTarget st = c := by
        unfold cdataTarget; rw [hd]; unfold getTarget; simp [h4]
      cases v with
      | none =>
          refine ⟨rfl, rfl, ?_⟩
          show some st = some ⟨st.node, some c⟩
          rw [← h4]
      | some x =>
          have hL : runOp a (.setCDATA (some x)) (some st)
              = ⟨0, some (putTarget true st
                    (setName c (strdupf a cdataFormat [FmtArg.argStr x]))),
                  freeEvents c.value.elementName⟩ := by
            simp [runOp, mxmlSetCDATA, ht, hd, hc.1, hc.2]
          have hR : runOp a (.setCDATA (some x)) (some ⟨c, none⟩)
              = ⟨0, some (putTarget false ⟨c, none⟩
                    (setName c (strdupf a cdataFormat [FmtArg.argStr x]))),
                  freeEvents c.value.elementName⟩ := by
            simp [runOp, mxmlSetCDATA, cdataTarget, descendCDATA, getTarget, hc.1, hc.2]
          rw [hL, hR]
          exact ⟨rfl, rfl, rfl⟩
  | setCustom nd ncb =>
      have hc : c.type = .custom := by simpa [childMatches, expectedKind] using h5
      refine ⟨?_, fun st2 hm => by rw [kindMismatch_noop a _ st2 hm]⟩
      have hd : descend .custom st = true := by
        unfold descend; rw [h4]; simp [h2, hc]
      have ht : targetFor .custom st = c := by
        unfold targetFor; rw [hd]; unfold getTarget; simp [h4]
      have hL : runOp a (.setCustom nd ncb) (some st)
          = ⟨0, some (putTarget true st (setCustomVal c nd ncb)), customEvents c⟩ := by
        simp [runOp, mxmlSetCustom, ht, hd, hc]
      have hR : runOp a (.setCustom nd ncb) (some ⟨c, none⟩)
          = ⟨0, some (putTarget false ⟨c, none⟩ (setCustomVal c nd ncb)),
              customEvents c⟩ := by
        simp [runOp, mxmlSetCustom, targetFor, descend, getTarget, hc]
      rw [hL, hR]
      exact ⟨rfl, rfl, rfl⟩
  | setInteger i =>
      have hc : c.type = .integer := by simpa [childMatches, expectedKind] using h5
      refine ⟨?_, fun st2 hm => by rw [kindMismatch_noop a _ st2 hm]⟩
      have hd : descend .integer st = true := by
        unfold descend; rw [h4]; simp [h2, hc]
      have ht : targetFor .integer st = c := by
        unfold targetFor; rw [hd]; unfold getTarget; simp [h4]
      have hL : runOp a (.setInteger i) (some st)
          = ⟨0, some (putTarget true st (setIntVal c i)), []⟩ := by
        simp [runOp, mxmlSetInteger, ht, hd, hc]
      have hR : runOp a (.setInteger i) (some ⟨c, none⟩)
          = ⟨0, some (putTarget false ⟨c, none⟩ (setIntVal c i)), []⟩ := by
        simp [runOp, mxmlSetInteger, targetFor, descend, getTarget, hc]
      rw [hL, hR]
      exact ⟨rfl, rfl, rfl⟩
  | setOpaque v =>
      have hc : c.type = .opaqueKind := by simpa [childMatches, expectedKind] using h5
      refine ⟨?_, fun st2 hm => by rw [kindMismatch_noop a _ st2 hm]⟩
      have hd : descend .opaqueKind st = true := by
        unfold descend; rw [h4]; simp [h2, hc]
      have ht : targetFor .opaqueKind st = c := by
        unfold targetFor; rw [hd]; unfold getTarget; simp [h4]
      cases v with
      | none =>
          refine ⟨rfl, rfl, ?_⟩
          show some st = some ⟨st.node, some c⟩
          rw [← h4]
      | some x =>
          have hL : runOp a (.setOpaque (some x)) (some st)
              = ⟨0, some (putTarget true st (setOpaqueVal c (strdup a x))),
                  freeEvents c.value.opaqueStr⟩ := by
            simp [runOp, mxmlSetOpaque, ht, hd, hc]
          have hR : runOp a (.setOpaque (some x)) (some ⟨c, none⟩)
              = ⟨0, some (putTarget false ⟨c, none⟩ (setOpaqueVal c (strdup a x))),
                  freeEvents c.value.opaqueStr⟩ := by
            simp [runOp, mxmlSetOpaque, targetFor, descend, getTarget, hc]
          rw [hL, hR]
          exact ⟨rfl, rfl, rfl⟩
  | setOpaquef f args =>
      have hc : c.type = .opaqueKind := by simpa [childMatches, expectedKind] using h5
      refine ⟨?_, fun st2 hm => by rw [kindMismatch_noop a _ st2 hm]⟩
      have hd : descend .opaqueKind st = true := by
        unfold descend; rw [h4]; simp [h2, hc]
      have ht : targetFor .opaqueKind st = c := by
        unfold targetFor; rw [hd]; unfold getTarget; simp [h4]
      cases f with
      | none =>
          refine ⟨rfl, rfl, ?_⟩
          show some st = some ⟨st.node, some c⟩
          rw [← h4]
      | some x =>
          have hL : runOp a (.setOpaquef (some x) args) (some st)
              = ⟨0, some (putTarget true st (setOpaqueVal c (strdupf a x args))),
                  freeEvents c.value.opaqueStr⟩ := by
            simp [runOp, mxmlSetOpaquef, ht, hd, hc]
          have hR : runOp a (.setOpaquef (some x) args) (some ⟨c, none⟩)
              = ⟨0, some (putTarget false ⟨c, none⟩ (setOpaqueVal c (strdupf a x args))),
                  freeEvents c.value.opaqueStr⟩ := by
            simp [runOp, mxmlSetOpaquef, targetFor, descend, getTarget, hc]
          rw [hL, hR]
          exact ⟨rfl, rfl, rfl⟩
  | setText w v =>
      have hc : c.type = .text := by simpa [childMatches, expectedKind] using h5
      refine ⟨?_, fun st2 hm => by rw [kindMismatch_noop a _ st2 hm]⟩
      have hd : descend .text st = true := by
        unfold descend; rw [h4]; simp [h2, hc]
      have ht : targetFor .text st = c := by
        unfold targetFor; rw [hd]; unfold getTarget; simp [h4]
      cases v with
      | none =>
          refine ⟨rfl, rfl, ?_⟩
          show some st = some ⟨st.node, some c⟩
          rw [← h4]
      | some x =>
          have hL : runOp a (.setText w (some x)) (some st)
              = ⟨0, some (putTarget true st (setTextVal c w (strdup a x))),
                  freeEvents c.value.textString⟩ := by
            simp [runOp, mxmlSetText, ht, hd, hc]
          have hR : runOp a (.setText w (some x)) (some ⟨c, none⟩)
              = ⟨0, some (putTarget false ⟨c, none⟩ (setTextVal c w (strdup a x))),
                  freeEvents c.value.textString⟩ := by
            simp [runOp, mxmlSetText, targetFor, descend, getTarget, hc]
          rw [hL, hR]
          exact ⟨rfl, rfl, rfl⟩
  | setTextf w f args =>
      have hc : c.type = .text := by simpa [childMatches, expectedKind] using h5
      refine ⟨?_, fun st2 hm => by rw [kindMismatch_noop a _ st2 hm]⟩
      have hd : descend .text st = true := by
        unfold descend; rw [h4]; simp [h2, hc]
      have ht : targetFor .text st = c := by
        unfold targetFor; rw [hd]; unfold getTarget; simp [h4]
      cases f with
      | none =>
          refine ⟨rfl, rfl, ?_⟩
          show some st = some ⟨st.node, some c⟩
          rw [← h4]
      | some x =>
          have hL : runOp a (.setTextf w (some x) args) (some st)
              = ⟨0, some (putTarget true st (setTextVal c w (strdupf a x args))),
                  freeEvents c.value.textString⟩ := by
            simp [runOp, mxmlSetTextf, ht, hd, hc]
          have hR : runOp a (.setTextf w (some x) args) (some ⟨c, none⟩)
              = ⟨0, some (putTarget false ⟨c, none⟩ (setTextVal c w (strdupf a x args))),
                  freeEvents c.value.textString⟩ := by
            simp [runOp, mxmlSetTextf, targetFor, descend, getTarget, hc]
          rw [hL, hR]
          exact ⟨rfl, rfl, rfl⟩

/-- Witness for C3 (amended): SetOpaque through an element wrapping an
opaque child behaves as the direct call on the child. -/
theorem traversal_rule_witness :
    (runOp true (SetOp.setOpaque (some "nv")) (some ⟨elemNode "w", some (opNode (some "o"))⟩)).ret
      = (runOp true (SetOp.setOpaque (some "nv")) (some ⟨opNode (some "o"), none⟩)).ret ∧
    (runOp true (SetOp.setOpaque (some "nv")) (some ⟨elemNode "w", some (opNode (some "o"))⟩)).events
      = (runOp true (SetOp.setOpaque (some "nv")) (some ⟨opNode (some "o"), none⟩)).events ∧
    (runOp true (SetOp.setOpaque (some "nv")) (some ⟨elemNode "w", some (opNode (some "o"))⟩)).state
      = some ⟨(⟨elemNode "w", some (opNode (some "o"))⟩ : SetState).node,
          ((runOp true (SetOp.setOpaque (some "nv")) (some ⟨opNode (some "o"), none⟩)).state).map
            SetState.node⟩ :=
  (traversal_rule true (SetOp.setOpaque (some "nv")) ⟨elemNode "w", some (opNode (some "o"))⟩
    (opNode (some "o")) rfl (by decide) (by decide) rfl (by decide)).1

/-- C10: for the string-installing setters, once validation passes the call
frees the old string and returns success unconditionally: the result code
and the releases performed are identical under a failing and a succeeding
allocator (so an allocation or rendering failure is never reported as
failure), and on success under a failing allocator the target is left
holding a NULL string rather than its previous value. -/
theorem alloc_failure_not_reported (o : SetOp) (st : SetState)
    (h : stringOp o = true) :
    (runOp false o (some st)).ret = (runOp true o (some st)).ret ∧
    (runOp false o (some st)).events = (runOp true o (some st)).events ∧
    ((runOp false o (some st)).ret = 0 →
      ((runOp false o (some st)).state).map
        (fun s2 => storedStr o (getTarget (descendFor o st) s2)) = some none) := by
  cases o with
  | setCustom nd ncb => simp [stringOp] at h
  | setInteger i => simp [stringOp] at h
  | setUserData d => simp [stringOp] at h
  | setCDATA v =>
      cases v with
      | none => exact ⟨rfl, rfl, fun h2 => absurd (show (-1 : Int) = 0 from h2) (by decide)⟩
      | some x =>
          by_cases hk : (cdataTarget st).type = .element ∧
              isCdataMarkedOpt (cdataTarget st).value.elementName = true
          · refine ⟨?_, ?_, ?_⟩
            · simp [runOp, mxmlSetCDATA, if_pos hk]
            · simp [runOp, mxmlSetCDATA, if_pos hk]
            · intro _
              have hr : runOp false (.setCDATA (some x)) (some st)
                  = ⟨0, some (putTarget (descendCDATA st) st
                      (setName (cdataTarget st) none)),
                    freeEvents (cdataTarget st).value.elementName⟩ := by
                simp [runOp, mxmlSetCDATA, if_pos hk, strdupf]
              rw [hr]
              simp [storedStr, descendFor, getTarget_putTarget, setName]
          · refine ⟨?_, ?_, ?_⟩
            · simp [runOp, mxmlSetCDATA, if_neg hk]
            · simp [runOp, mxmlSetCDATA, if_neg hk]
            · intro h2
              simp [runOp, mxmlSetCDATA, if_neg hk] at h2
  | setElement nm =>
      cases nm with
      | none => exact ⟨rfl, rfl, fun h2 => absurd (show (-1 : Int) = 0 from h2) (by decide)⟩
      | some x =>
          by_cases hk : st.node.type = .element
          · refine ⟨?_, ?_, ?_⟩
            · simp [runOp, mxmlSetElement, if_pos hk]
            · simp [runOp, mxmlSetElement, if_pos hk]
            · intro _
              have hr : runOp false (.setElement (some x)) (some st)
                  = ⟨0, some { st with node := setName st.node none },
                    freeEvents st.node.value.elementName⟩ := by
                simp [runOp, mxmlSetElement, if_pos hk, strdup]
              rw [hr]
              simp [storedStr, descendFor, getTarget, setName]
          · refine ⟨?_, ?_, ?_⟩
            · simp [runOp, mxmlSetElement, if_neg hk]
            · simp [runOp, mxmlSetElement, if_neg hk]
            · intro h2
              simp [runOp, mxmlSetElement, if_neg hk] at h2
  | setOpaque v =>
      cases v with
      | none => exact ⟨rfl, rfl, fun h2 => absurd (show (-1 : Int) = 0 from h2) (by decide)⟩
      | some x =>
          by_cases hk : (targetFor .opaqueKind st).type = .opaqueKind
          · refine ⟨?_, ?_, ?_⟩
            · simp [runOp, mxmlSetOpaque, if_pos hk]
            · simp [runOp, mxmlSetOpaque, if_pos hk]
            · intro _
              have hr : runOp false (.setOpaque (some x)) (some st)
                  = ⟨0, some (putTarget (descend .opaqueKind st) st
                      (setOpaqueVal (targetFor .opaqueKind st) none)),
                    freeEvents (targetFor .opaqueKind st).value.opaqueStr⟩ := by
                simp [runOp, mxmlSetOpaque, if_pos hk, strdup]
              rw [hr]
              simp [storedStr, descendFor, getTarget_putTarget, setOpaqueVal]
          · refine ⟨?_, ?_, ?_⟩
            · simp [runOp, mxmlSetOpaque, if_neg hk]
            · simp [runOp, mxmlSetOpaque, if_neg hk]
            · intro h2
              simp [runOp, mxmlSetOpaque, if_neg hk] at h2
  | setOpaquef f args =>
      cases f with
      | none => exact ⟨rfl, rfl, fun h2 => absurd (show (-1 : Int) = 0 from h2) (by decide)⟩
      | some x =>
          by_cases hk : (targetFor .opaqueKind st).type = .opaqueKind
          · refine ⟨?_, ?_, ?_⟩
            · simp [runOp, mxmlSetOpaquef, if_pos hk]
            · simp [runOp, mxmlSetOpaquef, if_pos hk]
            · intro _
              have hr : runOp false (.setOpaquef (some x) args) (some st)
                  = ⟨0, some (putTarget (descend .opaqueKind st) st
                      (setOpaqueVal (targetFor .opaqueKind st) none)),
                    freeEvents (targetFor .opaqueKind st).value.opaqueStr⟩ := by
                simp [runOp, mxmlSetOpaquef, if_pos hk, strdupf]
              rw [hr]
              simp [storedStr, descendFor, getTarget_putTarget, setOpaqueVal]
          · refine ⟨?_, ?_, ?_⟩
            · simp [runOp, mxmlSetOpaquef, if_neg hk]
            · simp [runOp, mxmlSetOpaquef, if_neg hk]
            · intro h2
              simp [runOp, mxmlSetOpaquef, if_neg hk] at h2
  | setText w v =>
      cases v with
      | none => exact ⟨rfl, rfl, fun h2 => absurd (show (-1 : Int) = 0 from h2) (by decide)⟩
      | some x =>
          by_cases hk : (targetFor .text st).type = .text
          · refine ⟨?_, ?_, ?_⟩
            · simp [runOp, mxmlSetText, if_pos hk]
            · simp [runOp, mxmlSetText, if_pos hk]
            · intro _
              have hr : runOp false (.setText w (some x)) (some st)
                  = ⟨0, some (putTarget (descend .text st) st
                      (setTextVal (targetFor .text st) w none)),
                    freeEvents (targetFor .text st).value.textString⟩ := by
                simp [runOp, mxmlSetText, if_pos hk, strdup]
              rw [hr]
              simp [storedStr, descendFor, getTarget_putTarget, setTextVal]
          · refine ⟨?_, ?_, ?_⟩
            · simp [runOp, mxmlSetText, if_neg hk]
            · simp [runOp, mxmlSetText, if_neg hk]
            · intro h2
              simp [runOp, mxmlSetText, if_neg hk] at h2
  | setTextf w f args =>
      cases f with
      | none => exact ⟨rfl, rfl, fun h2 => absurd (show (-1 : Int) = 0 from h2) (by decide)⟩
      | some x =>
          by_cases hk : (targetFor .text st).type = .text
          · refine ⟨?_, ?_, ?_⟩
            · simp [runOp, mxmlSetTextf, if_pos hk]
            · simp [runOp, mxmlSetTextf, if_pos hk]
            · intro _
              have hr : runOp false (.setTextf w (some x) args) (some st)
                  = ⟨0, some (putTarget (descend .text st) st
                      (setTextVal (targetFor .text st) w none)),
                    freeEvents (targetFor .text st).value.textString⟩ := by
                simp [runOp, mxmlSetTextf, if_pos hk, strdupf]
              rw [hr]
              simp [storedStr, descendFor, getTarget_putTarget, setTextVal]
          · refine ⟨?_, ?_, ?_⟩
            · simp [runOp, mxmlSetTextf, if_neg hk]
            · simp [runOp, mxmlSetTextf, if_neg hk]
            · intro h2
              simp [runOp, mxmlSetTextf, if_neg hk] at h2

/-- Witness for C10: a SetOpaque whose allocation fails still succeeds and
leaves the target holding a NULL string. -/
theorem alloc_failure_not_reported_witness :
    ((runOp false (SetOp.setOpaque (some "new")) (some ⟨opNode (some "old"), none⟩)).state).map
      (fun s2 => storedStr (SetOp.setOpaque (some "new"))
        (getTarget (descendFor (SetOp.setOpaque (some "new")) ⟨opNode (some "old"), none⟩) s2))
      = some none :=
  (alloc_failure_not_reported (SetOp.setOpaque (some "new"))
      ⟨opNode (some "old"), none⟩ rfl).2.2 (by decide)

end Mxml
